import Mathlib

/-!
# Verification of the go-aquos client core

Shallow embedding of the go-aquos package (`aquos.go`): the line framer
(`scanLines`/`isIgnore`), the session state machine (`send`, `readLine`,
`sendCommand`, `login`, `getInfo`), the command surface (`Power`, `Volume`,
accessors) and `Close`.  Bytes on the wire are modelled as `List Char`
(the protocol is ASCII), Go strings as `String`, Go's multiple return
values as tuples, and Go `error` values as `Option GoErr`.  Blocking on
the response channel is modelled by an `Option` result: `none` means the
call would block forever in the given state.
-/

namespace Aquos

/-- Go `error` values produced by the client: `errStr` for
`errors.New`/`fmt.Errorf` style messages, `atoiErr` for the
`strconv.Atoi` parse error (Go's `*strconv.NumError`), tagged with the
offending input. -/
inductive GoErr where
  | errStr (s : String)
  | atoiErr (input : String)
deriving Repr, DecidableEq

/-- One record on the response channel: `type response struct { text string; err error }`. -/
structure response where
  text : String
  err : Option GoErr
deriving Repr, DecidableEq

/-! ## Line framer (`isIgnore`, `scanLines`) -/

/-- `func isIgnore(b byte) bool { return b == '\r' || b == '\n' || b == ':' }` -/
def isIgnore (b : Char) : Bool :=
  b == '\r' || b == '\n' || b == ':'

/-- Result triple of the Go split function `scanLines`:
`(advance int, token []byte, err error)`.  `advance` is a `Nat` because
the Go code only ever returns non-negative values (indices into `data`);
`err` is carried explicitly to record that the Go function always
returns `nil` for it. -/
structure ScanResult where
  advance : Nat
  token : Option (List Char)
  err : Option GoErr
deriving Repr, DecidableEq

/-- The inner loop `for i := start; i < len(data); i++ { if isIgnore(data[i]) ... }`:
index of the first ignorable byte of the list, if any. -/
def findIgnore : List Char → Option Nat
  | [] => none
  | b :: rest => if isIgnore b then some 0 else (findIgnore rest).map (· + 1)

/-- `func scanLines(data []byte, atEOF bool) (advance int, token []byte, err error)`.
The leading skip loop computing `start` is `takeWhile`/`dropWhile`:
`start` is the length of the maximal ignorable prefix and
`data[start:] = data.dropWhile isIgnore`. -/
def scanLines (data : List Char) (atEOF : Bool) : ScanResult :=
  if atEOF && data.isEmpty then ⟨0, none, none⟩
  else
    match findIgnore (data.dropWhile isIgnore) with
    | some j =>
      ⟨(data.takeWhile isIgnore).length + j + 1,
        some ((data.dropWhile isIgnore).take j), none⟩
    | none =>
      if atEOF && decide ((data.takeWhile isIgnore).length < data.length) then
        ⟨data.length, some (data.dropWhile isIgnore), none⟩
      else ⟨(data.takeWhile isIgnore).length, none, none⟩

example : scanLines ['\r', 'A'] false = ⟨1, none, none⟩ := by decide
example : scanLines ['A', 'B', '\r', 'C'] false = ⟨3, some ['A', 'B'], none⟩ := by decide
example : scanLines ['\r', '\n', ':', 'O', 'K', '\r', 'x'] false = ⟨6, some ['O', 'K'], none⟩ := by
  decide
example : scanLines ['A'] true = ⟨1, some ['A'], none⟩ := by decide
example : scanLines [] true = ⟨0, none, none⟩ := by decide
example : scanLines ['\r', '\r'] false = ⟨2, none, none⟩ := by decide

/-- The hypothesis of C4, in the claim's words: no ignorable byte occurs
at or after the first non-ignorable position of the buffer. -/
def noIgnoreAfterSkip (data : List Char) : Bool :=
  (data.dropWhile isIgnore).all (fun b => !isIgnore b)

/-! ## Session state

The `Client` struct of `aquos.go` plus an explicit model of the I/O the
session performs.  `incoming` is the sequence of records the async
reader (`readLoop`) will deliver on the channel `c.res`, in order;
`chanClosed` says the reader has terminated and closed the channel after
those records; `trace` records, in order, every flushed write to the
stream and every record consumed from the channel. -/

/-- The underlying `net.Conn`, reduced to the one bit the client code
observes through `Close`.  Go's `net` package semantics: closing an
already-closed connection returns `net.ErrClosed`
("use of closed network connection"). -/
structure Conn where
  closed : Bool
deriving Repr, DecidableEq

/-- `net.Conn.Close` (Go standard library semantics, not repo code):
first close succeeds, any later close reports the connection closed. -/
def Conn.close (cn : Conn) : Option GoErr × Conn :=
  if cn.closed then (some (.errStr "use of closed network connection"), cn)
  else (none, ⟨true⟩)

/-- An observable I/O action of the session: one flushed write of bytes
to the stream, or one receive of a record from the response channel. -/
inductive IOEvent where
  | write (bytes : List Char)
  | recv (r : response)
deriving Repr, DecidableEq

/-- The `Client` struct: configured credentials, cached identity fields,
the connection handle, and the modelled channel/trace state. -/
structure Client where
  Username : String
  Password : String
  name : String := ""
  modelName : String := ""
  softwareVersion : String := ""
  ipProtocolVersion : String := ""
  conn : Option Conn := none
  incoming : List response := []
  chanClosed : Bool := false
  trace : List IOEvent := []
deriving Repr, DecidableEq

/-- Go's `fmt.Sprintf("%-4s", arg)`: left-justify `arg`, padding on the
right with spaces to a minimum width of 4; longer strings unchanged. -/
def goPad4 (arg : String) : String :=
  arg ++ String.mk (List.replicate (4 - arg.length) ' ')

example : goPad4 "1" = "1   " := by decide
example : goPad4 "?" = "?   " := by decide
example : goPad4 "12345" = "12345" := by decide

/-- `func (c *Client) send(str string) (err error)`: one buffered
`WriteString(str)` + `WriteByte('\r')` + explicit `Flush`, i.e. a single
flushed write of `str` followed by one carriage return.  Write errors of
the underlying stream are not modelled (no claim concerns them), so the
Go `error` result is always `nil` and elided. -/
def Client.send (c : Client) (str : String) : Client :=
  { c with trace := c.trace ++ [IOEvent.write (str.data ++ ['\r'])] }

/-- `func (c *Client) readLine() (string, error)`: receive from `c.res`.
`none` models blocking forever (channel empty and not closed). -/
def Client.readLine (c : Client) : Option (String × Option GoErr × Client) :=
  match c.incoming with
  | r :: rest =>
    let c1 : Client := { c with incoming := rest, trace := c.trace ++ [IOEvent.recv r] }
    match r.err with
    | some e => some ("", some e, c1)
    | none => some (r.text, none, c1)
  | [] =>
    if c.chanClosed then some ("", some (.errStr "connection already closed"), c)
    else none

/-- `func (c *Client) sendCommand(cmd, arg string) (res string, err error)`:
write `fmt.Sprintf("%s%-4s", cmd, arg)` (plus the terminating `'\r'`
added by `send`), then read one record; `"ERR"` becomes the
device-rejection error (note Go's named result `res` keeps the value
`"ERR"` in that case). -/
def Client.sendCommand (c : Client) (cmd arg : String) :
    Option (String × Option GoErr × Client) :=
  let c1 := c.send (cmd ++ goPad4 arg)
  match c1.readLine with
  | none => none
  | some (_, some e, c2) => some ("", some e, c2)
  | some (res, none, c2) =>
    if res = "ERR" then some (res, some (.errStr "aquos returns a error"), c2)
    else some (res, none, c2)

/-! ## Login handshake -/

/-- Go's `strings.Contains(s, sub)`: `sub` occurs as a contiguous
substring of `s`. -/
def isPrefixB : List Char → List Char → Bool
  | [], _ => true
  | _ :: _, [] => false
  | a :: as, b :: bs => a == b && isPrefixB as bs

/-- Substring search over the byte list, used for `strings.Contains`. -/
def containsSub : List Char → List Char → Bool
  | l, sub =>
    match l with
    | [] => isPrefixB sub []
    | _ :: rest => isPrefixB sub l || containsSub rest sub

/-- `strings.Contains(s, sub)`. -/
def goContains (s sub : String) : Bool :=
  containsSub s.data sub.data

example : goContains "Login:" "Login" = true := by decide
example : goContains "Password:" "Password" = true := by decide
example : goContains "hello" "Login" = false := by decide

/-- Outcome of one `select` in `login`: either the `time.After` timer
fires first, or a record arrives on `c.res` first. -/
inductive LoginEv where
  | timeout
  | record (r : response)
deriving Repr, DecidableEq

/-- `func (c *Client) login() error`, driven by the list of `select`
outcomes in order.  A received record is appended to the trace; each
credential write goes through `send`.  `none` models running out of
events (blocking forever on an empty never-closed channel is not what
`login` does — it always races a timeout — so `none` only means the
event list was too short). -/
def Client.login (c : Client) (evs : List LoginEv) : Option (Option GoErr × Client) :=
  match evs with
  | [] => none
  | .timeout :: _ => some (none, c)
  | .record r :: evs1 =>
    let c := { c with trace := c.trace ++ [IOEvent.recv r] }
    match r.err with
    | some e => some (some e, c)
    | none =>
      if !goContains r.text "Login" then
        some (some (.errStr "failed to login (invalid response)"), c)
      else if c.Username = "" then
        some (some (.errStr "username is not specified"), c)
      else
        let c := c.send c.Username
        match evs1 with
        | [] => none
        | .timeout :: _ =>
          some (some (.errStr "failed to login (AQUOS does not respond)"), c)
        | .record r2 :: evs2 =>
          let c := { c with trace := c.trace ++ [IOEvent.recv r2] }
          match r2.err with
          | some e => some (some e, c)
          | none =>
            if !goContains r2.text "Password" then
              some (some (.errStr "failed to login (invalid response)"), c)
            else if c.Password = "" then
              some (some (.errStr "Password is not specified"), c)
            else
              let c := c.send c.Password
              match evs2 with
              | [] => none
              | .timeout :: _ => some (none, c)
              | .record r3 :: _ =>
                let c := { c with trace := c.trace ++ [IOEvent.recv r3] }
                match r3.err with
                | some e => some (some e, c)
                | none =>
                  some (some (.errStr ("failed to login (" ++ r3.text ++ ")")), c)

/-! ## Identity queries and accessors -/

/-- `func (c *Client) getInfo() error`: the four identity queries in
source order, each `c.<field>, err = c.sendCommand(code, "1")` followed
by an error check (the field is assigned even when `err != nil`,
mirroring Go's simultaneous assignment). -/
def Client.getInfo (c : Client) : Option (Option GoErr × Client) :=
  match c.sendCommand "TVNM" "1" with
  | none => none
  | some (v1, e1, c1) =>
    let c1 : Client := { c1 with name := v1 }
    match e1 with
    | some e => some (some e, c1)
    | none =>
      match c1.sendCommand "MNRD" "1" with
      | none => none
      | some (v2, e2, c2) =>
        let c2 : Client := { c2 with modelName := v2 }
        match e2 with
        | some e => some (some e, c2)
        | none =>
          match c2.sendCommand "SWVN" "1" with
          | none => none
          | some (v3, e3, c3) =>
            let c3 : Client := { c3 with softwareVersion := v3 }
            match e3 with
            | some e => some (some e, c3)
            | none =>
              match c3.sendCommand "IPPV" "1" with
              | none => none
              | some (v4, e4, c4) =>
                let c4 : Client := { c4 with ipProtocolVersion := v4 }
                match e4 with
                | some e => some (some e, c4)
                | none => some (none, c4)

/-- The post-dial part of `Connect`: run `login`, then on success
`getInfo` (dialing and goroutine start are environment setup, not
modelled). -/
def Client.connectSession (c : Client) (evs : List LoginEv) :
    Option (Option GoErr × Client) :=
  match c.login evs with
  | none => none
  | some (some e, c1) => some (some e, c1)
  | some (none, c1) => c1.getInfo

/-- Accessor `func (c *Client) Name() string`. -/
def Client.Name (c : Client) : String := c.name

/-- Accessor `func (c *Client) ModelName() string`. -/
def Client.ModelName (c : Client) : String := c.modelName

/-- Accessor `func (c *Client) SoftwareVersion() string`. -/
def Client.SoftwareVersion (c : Client) : String := c.softwareVersion

/-- Accessor `func (c *Client) IPProtocolVersion() string`. -/
def Client.IPProtocolVersion (c : Client) : String := c.ipProtocolVersion

/-! ## Command surface and Close -/

/-- `func (c *Client) Close() error`: nil guard, then close the
underlying connection.  Note the Go code does not clear `c.conn`. -/
def Client.Close (c : Client) : Option GoErr × Client :=
  match c.conn with
  | none => (none, c)
  | some cn =>
    let (e, cn1) := cn.close
    (e, { c with conn := some cn1 })

/-- `func (c *Client) Power(on bool) error`. -/
def Client.Power (c : Client) (b : Bool) : Option (Option GoErr × Client) :=
  let arg := if b then "1" else "0"
  match c.sendCommand "POWR" arg with
  | none => none
  | some (_, e, c1) => some (e, c1)

/-- Decimal digit run for `strconv.Atoi`: every character must be
`'0'..'9'`; accumulates the value. -/
def parseDigitsAux : List Char → Nat → Option Nat
  | [], acc => some acc
  | ch :: rest, acc =>
    if '0' ≤ ch ∧ ch ≤ '9' then parseDigitsAux rest (acc * 10 + (ch.toNat - '0'.toNat))
    else none

/-- `strconv.Atoi(s)`: optional sign, then one or more decimal digits;
anything else is a syntax error (`none`).  Go's int-range check is not
modelled (no claim involves values near 2^63). -/
def goAtoi (s : String) : Option Int :=
  match s.data with
  | [] => none
  | '+' :: ds => if ds = [] then none else (parseDigitsAux ds 0).map Int.ofNat
  | '-' :: ds => if ds = [] then none else (parseDigitsAux ds 0).map (fun n => -(n : Int))
  | ds => (parseDigitsAux ds 0).map Int.ofNat

example : goAtoi "30" = some 30 := by decide
example : goAtoi "abc" = none := by decide
example : goAtoi "-12" = some (-12) := by decide
example : goAtoi "" = none := by decide

/-- `func (c *Client) Volume() (int, error)`: query `VOLM ?`, then
`strconv.Atoi` on the reply. -/
def Client.Volume (c : Client) : Option ((Int × Option GoErr) × Client) :=
  match c.sendCommand "VOLM" "?" with
  | none => none
  | some (_, some e, c1) => some ((0, some e), c1)
  | some (res, none, c1) =>
    match goAtoi res with
    | none => some ((0, some (.atoiErr res)), c1)
    | some v => some ((v, none), c1)

/-! ## Line framer lemmas -/

theorem takeWhile_add_dropWhile_length (data : List Char) :
    (data.takeWhile isIgnore).length + (data.dropWhile isIgnore).length = data.length := by
  conv_rhs => rw [← List.takeWhile_append_dropWhile isIgnore data]
  exact (List.length_append _ _).symm

theorem dropWhile_head_false (p : Char → Bool) (l : List Char) (a : Char) (rest : List Char)
    (h : l.dropWhile p = a :: rest) : p a = false := by
  induction l with
  | nil => simp [List.dropWhile] at h
  | cons b l ih =>
    rw [List.dropWhile_cons] at h
    by_cases hb : p b
    · rw [if_pos hb] at h
      exact ih h
    · rw [if_neg hb] at h
      cases h
      exact Bool.eq_false_iff.mpr hb

theorem findIgnore_lt_length (l : List Char) (j : Nat) (h : findIgnore l = some j) :
    j < l.length := by
  induction l generalizing j with
  | nil => simp [findIgnore] at h
  | cons b rest ih =>
    rw [findIgnore] at h
    by_cases hb : isIgnore b
    · rw [if_pos hb] at h
      cases h
      simp
    · rw [if_neg hb] at h
      rcases Option.map_eq_some'.mp h with ⟨k, hk, rfl⟩
      have := ih k hk
      simp
      omega

theorem findIgnore_cons_pos (a : Char) (rest : List Char) (j : Nat)
    (ha : isIgnore a = false) (h : findIgnore (a :: rest) = some j) : 0 < j := by
  rw [findIgnore, if_neg (by simp [ha])] at h
  rcases Option.map_eq_some'.mp h with ⟨k, _, rfl⟩
  omega

theorem findIgnore_eq_none_of_all (l : List Char)
    (h : l.all (fun b => !isIgnore b) = true) : findIgnore l = none := by
  induction l with
  | nil => rfl
  | cons b rest ih =>
    rw [List.all_cons, Bool.and_eq_true] at h
    rw [findIgnore, if_neg (by simp at h ⊢; exact h.1), ih h.2]
    rfl

/-- Any token produced by `scanLines` is nonempty: the leading skip
guarantees the first byte after `start` is not ignorable, so the
separator search never fires at offset zero, and the EOF flush only
emits when content remains. -/
theorem scanLines_token_ne_nil_aux (data : List Char) (atEOF : Bool) (t : List Char)
    (h : (scanLines data atEOF).token = some t) : t ≠ [] := by
  rw [scanLines] at h
  by_cases h0 : atEOF && data.isEmpty
  · rw [if_pos h0] at h
    simp at h
  · rw [if_neg h0] at h
    cases hf : findIgnore (data.dropWhile isIgnore) with
    | some j =>
      rw [hf] at h
      simp only [ScanResult.mk.injEq] at h
      cases hd : data.dropWhile isIgnore with
      | nil => rw [hd] at hf; simp [findIgnore] at hf
      | cons a rs =>
        have ha : isIgnore a = false := dropWhile_head_false isIgnore data a rs hd
        have hj : 0 < j := findIgnore_cons_pos a rs j ha (hd ▸ hf)
        rw [hd] at h
        cases j with
        | zero => omega
        | succ k =>
          rw [List.take_succ_cons] at h
          rw [Option.some_inj.mp h.symm]
          simp
    | none =>
      rw [hf] at h
      by_cases hc : atEOF && decide ((data.takeWhile isIgnore).length < data.length)
      · rw [if_pos hc] at h
        have hlt : (data.takeWhile isIgnore).length < data.length := by
          rcases Bool.and_eq_true _ _ |>.mp hc with ⟨_, h2⟩
          exact of_decide_eq_true h2
        have hsum := takeWhile_add_dropWhile_length data
        simp only [ScanResult.mk.injEq] at h
        rw [Option.some_inj.mp h.symm]
        intro hnil
        rw [hnil] at hsum
        simp at hsum
        omega
      · rw [if_neg hc] at h
        simp at h

/-! ## Session lemmas

Evaluation lemmas for `sendCommand` in each of its four cases: next
record carries an error, next record is `"ERR"`, next record is an
ordinary reply, and channel already closed and drained. -/

/-- The bytes of the padded argument. -/
theorem goPad4_data (arg : String) :
    (goPad4 arg).data = arg.data ++ List.replicate (4 - arg.length) ' ' := by
  rw [goPad4, String.data_append]

/-- The serialized bytes of one command: code, argument padded to width
4, one carriage return. -/
theorem sendCommand_bytes (cmd arg : String) :
    (cmd ++ goPad4 arg).data ++ ['\r'] =
      cmd.data ++ arg.data ++ List.replicate (4 - arg.length) ' ' ++ ['\r'] := by
  rw [String.data_append, goPad4_data]
  simp [List.append_assoc]

theorem sendCommand_eq_streamErr (c : Client) (cmd arg : String) (r : response)
    (rest : List response) (e : GoErr) (hin : c.incoming = r :: rest)
    (he : r.err = some e) :
    c.sendCommand cmd arg =
      some ("", some e,
        { c with incoming := rest,
                 trace := c.trace ++
                   [IOEvent.write ((cmd ++ goPad4 arg).data ++ ['\r']), IOEvent.recv r] }) := by
  simp only [Client.sendCommand, Client.send, Client.readLine, hin, he]
  simp [List.append_assoc]

theorem sendCommand_eq_rejected (c : Client) (cmd arg : String) (r : response)
    (rest : List response) (hin : c.incoming = r :: rest)
    (he : r.err = none) (ht : r.text = "ERR") :
    c.sendCommand cmd arg =
      some ("ERR", some (.errStr "aquos returns a error"),
        { c with incoming := rest,
                 trace := c.trace ++
                   [IOEvent.write ((cmd ++ goPad4 arg).data ++ ['\r']), IOEvent.recv r] }) := by
  simp only [Client.sendCommand, Client.send, Client.readLine, hin, he]
  simp [ht, List.append_assoc]

theorem sendCommand_eq_ok (c : Client) (cmd arg : String) (r : response)
    (rest : List response) (hin : c.incoming = r :: rest)
    (he : r.err = none) (ht : r.text ≠ "ERR") :
    c.sendCommand cmd arg =
      some (r.text, none,
        { c with incoming := rest,
                 trace := c.trace ++
                   [IOEvent.write ((cmd ++ goPad4 arg).data ++ ['\r']), IOEvent.recv r] }) := by
  simp only [Client.sendCommand, Client.send, Client.readLine, hin, he]
  simp [ht, List.append_assoc]

theorem sendCommand_eq_closed (c : Client) (cmd arg : String)
    (hin : c.incoming = []) (hc : c.chanClosed = true) :
    c.sendCommand cmd arg =
      some ("", some (.errStr "connection already closed"),
        { c with trace := c.trace ++
            [IOEvent.write ((cmd ++ goPad4 arg).data ++ ['\r'])] }) := by
  simp only [Client.sendCommand, Client.send, Client.readLine, hin, hc]
  simp

/-! ## Claim theorems -/

/-- C1: for every command code and argument, `sendCommand` writes the
code immediately followed by the argument left-justified and
space-padded to minimum width 4 (longer arguments as-is, witnessed by
`goPad4 arg = arg` for long arguments), followed by exactly one
carriage return, as one single flushed write event; whatever else the
call does adds no further write. -/
theorem sendCommand_serializes (c : Client) (cmd arg : String) :
    (c.send (cmd ++ goPad4 arg)).trace =
      c.trace ++ [IOEvent.write (cmd.data ++ arg.data ++
        List.replicate (4 - arg.length) ' ' ++ ['\r'])] ∧
    (4 ≤ arg.length → goPad4 arg = arg) ∧
    (∀ res e c1, c.sendCommand cmd arg = some (res, e, c1) →
      ∃ tail, c1.trace = c.trace ++ IOEvent.write (cmd.data ++ arg.data ++
          List.replicate (4 - arg.length) ' ' ++ ['\r']) :: tail ∧
        ∀ bs, IOEvent.write bs ∈ tail → False) := by
  refine ⟨by simp [Client.send, goPad4_data], ?_, ?_⟩
  · intro h4
    apply String.ext
    simp [goPad4, Nat.sub_eq_zero_of_le h4]
  · intro res e c1 h
    cases hin : c.incoming with
    | nil =>
      by_cases hc : c.chanClosed
      · rw [sendCommand_eq_closed c cmd arg hin hc, Option.some_inj] at h
        obtain ⟨-, -, rfl⟩ := Prod.mk.injEq .. ▸ h
        refine ⟨[], by simp [goPad4_data], by simp⟩
      · simp only [Client.sendCommand, Client.send, Client.readLine, hin,
          Bool.not_eq_true] at h
        rw [if_neg (by simpa using hc)] at h
        simp at h
    | cons r rest =>
      cases he : r.err with
      | some e0 =>
        rw [sendCommand_eq_streamErr c cmd arg r rest e0 hin he, Option.some_inj] at h
        obtain ⟨-, -, rfl⟩ := Prod.mk.injEq .. ▸ h
        refine ⟨[IOEvent.recv r], by simp [goPad4_data], by simp⟩
      | none =>
        by_cases ht : r.text = "ERR"
        · rw [sendCommand_eq_rejected c cmd arg r rest hin he ht, Option.some_inj] at h
          obtain ⟨-, -, rfl⟩ := Prod.mk.injEq .. ▸ h
          refine ⟨[IOEvent.recv r], by simp [goPad4_data], by simp⟩
        · rw [sendCommand_eq_ok c cmd arg r rest hin he ht, Option.some_inj] at h
          obtain ⟨-, -, rfl⟩ := Prod.mk.injEq .. ▸ h
          refine ⟨[IOEvent.recv r], by simp [goPad4_data], by simp⟩

/-- Witness for C1: the concrete serialization of `VOLM` with the short
argument `"?"` (padded) and with a long argument (written as-is). -/
theorem sendCommand_serializes_witness :
    (Client.send { Username := "", Password := "" } ("VOLM" ++ goPad4 "?")).trace =
      [IOEvent.write ("VOLM?   \r".data)] ∧ goPad4 "12345" = "12345" :=
  ⟨by rw [(sendCommand_serializes { Username := "", Password := "" } "VOLM" "?").1]; decide,
   (sendCommand_serializes { Username := "", Password := "" } "VOLM" "12345").2.1 (by decide)⟩

/-- C2: the next response record decides `sendCommand`'s result: a
stream error is returned verbatim, the literal text `"ERR"` becomes the
device-rejection error (not a success), and any other text — the empty
string included — is the successful result with no error. -/
theorem sendCommand_response_cases (c : Client) (cmd arg : String) (r : response)
    (rest : List response) (hin : c.incoming = r :: rest) :
    (∀ e, r.err = some e → ∃ c1, c.sendCommand cmd arg = some ("", some e, c1)) ∧
    (r.err = none → r.text = "ERR" →
      ∃ c1, c.sendCommand cmd arg =
        some ("ERR", some (.errStr "aquos returns a error"), c1)) ∧
    (r.err = none → r.text ≠ "ERR" →
      ∃ c1, c.sendCommand cmd arg = some (r.text, none, c1)) :=
  ⟨fun e he => ⟨_, sendCommand_eq_streamErr c cmd arg r rest e hin he⟩,
   fun he ht => ⟨_, sendCommand_eq_rejected c cmd arg r rest hin he ht⟩,
   fun he ht => ⟨_, sendCommand_eq_ok c cmd arg r rest hin he ht⟩⟩

/-- Witness for C2: a device replying `"ERR"` yields the rejection
error, and a device replying the empty string yields a successful empty
result. -/
theorem sendCommand_response_cases_witness :
    (∃ c1, Client.sendCommand
        { Username := "", Password := "", incoming := [⟨"ERR", none⟩] } "POWR" "1" =
      some ("ERR", some (.errStr "aquos returns a error"), c1)) ∧
    (∃ c1, Client.sendCommand
        { Username := "", Password := "", incoming := [⟨"", none⟩] } "POWR" "1" =
      some ("", none, c1)) :=
  ⟨(sendCommand_response_cases _ "POWR" "1" ⟨"ERR", none⟩ [] rfl).2.1 rfl rfl,
   (sendCommand_response_cases _ "POWR" "1" ⟨"", none⟩ [] rfl).2.2 rfl (by decide)⟩

/-- C3: a banner containing "Login" with an empty configured username
fails the handshake with the missing-credential error, and the trace
gains only the banner receive — nothing is written to the stream after
the banner. -/
theorem login_missing_username (c : Client) (r : response) (evs : List LoginEv)
    (hu : c.Username = "") (he : r.err = none)
    (hl : goContains r.text "Login" = true) :
    c.login (.record r :: evs) =
      some (some (.errStr "username is not specified"),
        { c with trace := c.trace ++ [IOEvent.recv r] }) ∧
    ∀ bs, IOEvent.write bs ∈ [IOEvent.recv r] → False := by
  constructor
  · simp only [Client.login, he, hl, hu]
    simp
  · simp

/-- Witness for C3 at a concrete client and banner `"Login:"`. -/
theorem login_missing_username_witness :
    Client.login { Username := "", Password := "pw" }
        [.record ⟨"Login:", none⟩] =
      some (some (.errStr "username is not specified"),
        { Username := "", Password := "pw",
          trace := [IOEvent.recv ⟨"Login:", none⟩] }) :=
  (login_missing_username { Username := "", Password := "pw" } ⟨"Login:", none⟩ []
    rfl rfl (by decide)).1

/-- C6: after a successful login, the session bring-up issues exactly
the four identity queries `TVNM`, `MNRD`, `SWVN`, `IPPV`, each with
argument `"1"`, in that order, each written and answered before the
next is written (visible in the alternating write/receive trace); the
four reply texts are cached and exposed by the accessors. -/
theorem connect_identity_queries (c c1 : Client) (evs : List LoginEv)
    (r1 r2 r3 r4 : response) (rest : List response)
    (hlogin : c.login evs = some (none, c1))
    (hin : c1.incoming = [r1, r2, r3, r4] ++ rest)
    (he1 : r1.err = none) (he2 : r2.err = none)
    (he3 : r3.err = none) (he4 : r4.err = none)
    (ht1 : r1.text ≠ "ERR") (ht2 : r2.text ≠ "ERR")
    (ht3 : r3.text ≠ "ERR") (ht4 : r4.text ≠ "ERR") :
    ∃ c4, c.connectSession evs = some (none, c4) ∧
      c4.Name = r1.text ∧ c4.ModelName = r2.text ∧
      c4.SoftwareVersion = r3.text ∧ c4.IPProtocolVersion = r4.text ∧
      c4.incoming = rest ∧
      c4.trace = c1.trace ++
        [IOEvent.write ("TVNM1   \r".data), IOEvent.recv r1,
         IOEvent.write ("MNRD1   \r".data), IOEvent.recv r2,
         IOEvent.write ("SWVN1   \r".data), IOEvent.recv r3,
         IOEvent.write ("IPPV1   \r".data), IOEvent.recv r4] := by
  have hb1 : ("TVNM" ++ goPad4 "1").data ++ ['\r'] = "TVNM1   \r".data := by decide
  have hb2 : ("MNRD" ++ goPad4 "1").data ++ ['\r'] = "MNRD1   \r".data := by decide
  have hb3 : ("SWVN" ++ goPad4 "1").data ++ ['\r'] = "SWVN1   \r".data := by decide
  have hb4 : ("IPPV" ++ goPad4 "1").data ++ ['\r'] = "IPPV1   \r".data := by decide
  rw [Client.connectSession, hlogin]
  dsimp only
  rw [Client.getInfo.eq_def]
  rw [sendCommand_eq_ok c1 "TVNM" "1" r1 ([r2, r3, r4] ++ rest) hin he1 ht1]
  dsimp only
  rw [sendCommand_eq_ok _ "MNRD" "1" r2 ([r3, r4] ++ rest) rfl he2 ht2]
  dsimp only
  rw [sendCommand_eq_ok _ "SWVN" "1" r3 ([r4] ++ rest) rfl he3 ht3]
  dsimp only
  rw [sendCommand_eq_ok _ "IPPV" "1" r4 rest rfl he4 ht4]
  dsimp only
  refine ⟨_, rfl, rfl, rfl, rfl, rfl, rfl, ?_⟩
  dsimp only [Client.trace]
  rw [hb1, hb2, hb3, hb4]
  simp [List.append_assoc]

/-- Witness for C6: a concrete device replying `TV`, `MODEL`, `1.0`,
`2`, after a login that timed out (no login required). -/
theorem connect_identity_queries_witness :
    ∃ c4, Client.connectSession
        { Username := "", Password := "",
          incoming := [⟨"TV", none⟩, ⟨"MODEL", none⟩, ⟨"1.0", none⟩, ⟨"2", none⟩] }
        [.timeout] =
      some (none, c4) ∧
      c4.Name = "TV" ∧ c4.ModelName = "MODEL" ∧ c4.SoftwareVersion = "1.0" ∧
      c4.IPProtocolVersion = "2" ∧ c4.incoming = [] ∧
      c4.trace =
        [IOEvent.write ("TVNM1   \r".data), IOEvent.recv ⟨"TV", none⟩,
         IOEvent.write ("MNRD1   \r".data), IOEvent.recv ⟨"MODEL", none⟩,
         IOEvent.write ("SWVN1   \r".data), IOEvent.recv ⟨"1.0", none⟩,
         IOEvent.write ("IPPV1   \r".data), IOEvent.recv ⟨"2", none⟩] := by
  have h := connect_identity_queries
    { Username := "", Password := "",
      incoming := [⟨"TV", none⟩, ⟨"MODEL", none⟩, ⟨"1.0", none⟩, ⟨"2", none⟩] }
    { Username := "", Password := "",
      incoming := [⟨"TV", none⟩, ⟨"MODEL", none⟩, ⟨"1.0", none⟩, ⟨"2", none⟩] }
    [.timeout]
    ⟨"TV", none⟩ ⟨"MODEL", none⟩ ⟨"1.0", none⟩ ⟨"2", none⟩ [] rfl rfl
    rfl rfl rfl rfl (by decide) (by decide) (by decide) (by decide)
  simpa using h

/-- C7: `Volume` sends `VOLM` with argument `"?"` (visible in the
trace) and parses the reply with `strconv.Atoi`: a numeric reply is
returned as that integer with no error, a non-numeric reply yields the
parse error; `"30"` parses to `30`. -/
theorem Volume_parses (c : Client) (r : response) (rest : List response)
    (hin : c.incoming = r :: rest) (he : r.err = none) (ht : r.text ≠ "ERR") :
    (∀ v, goAtoi r.text = some v →
      ∃ c1, c.Volume = some ((v, none), c1) ∧
        c1.trace = c.trace ++ [IOEvent.write ("VOLM?   \r".data), IOEvent.recv r]) ∧
    (goAtoi r.text = none →
      ∃ c1, c.Volume = some ((0, some (.atoiErr r.text)), c1) ∧
        c1.trace = c.trace ++ [IOEvent.write ("VOLM?   \r".data), IOEvent.recv r]) ∧
    goAtoi "30" = some 30 := by
  have hb : ("VOLM" ++ goPad4 "?").data ++ ['\r'] = "VOLM?   \r".data := by decide
  have hsc := sendCommand_eq_ok c "VOLM" "?" r rest hin he ht
  refine ⟨?_, ?_, by decide⟩
  · intro v hv
    have hvol : c.Volume = some ((v, none),
        { c with incoming := rest,
                 trace := c.trace ++
                   [IOEvent.write ("VOLM?   \r".data), IOEvent.recv r] }) := by
      rw [Client.Volume.eq_def, hsc]
      dsimp only
      rw [hv, hb]
    exact ⟨_, hvol, rfl⟩
  · intro hv
    have hvol : c.Volume = some ((0, some (.atoiErr r.text)),
        { c with incoming := rest,
                 trace := c.trace ++
                   [IOEvent.write ("VOLM?   \r".data), IOEvent.recv r] }) := by
      rw [Client.Volume.eq_def, hsc]
      dsimp only
      rw [hv, hb]
    exact ⟨_, hvol, rfl⟩

/-- Witness for C7: a device replying `"30"` yields integer 30; a
device replying `"abc"` yields the parse error. -/
theorem Volume_parses_witness :
    (∃ c1, Client.Volume
        { Username := "", Password := "", incoming := [⟨"30", none⟩] } =
      some ((30, none), c1) ∧
      c1.trace = [IOEvent.write ("VOLM?   \r".data), IOEvent.recv ⟨"30", none⟩]) ∧
    (∃ c1, Client.Volume
        { Username := "", Password := "", incoming := [⟨"abc", none⟩] } =
      some ((0, some (.atoiErr "abc")), c1) ∧
      c1.trace = [IOEvent.write ("VOLM?   \r".data), IOEvent.recv ⟨"abc", none⟩]) :=
  ⟨(Volume_parses _ ⟨"30", none⟩ [] rfl rfl (by decide)).1 30 (by decide),
   (Volume_parses _ ⟨"abc", none⟩ [] rfl rfl (by decide)).2.1 (by decide)⟩

/-- C9: once the reader has terminated and closed the channel and it is
drained, `readLine` — and through it `sendCommand` and the command
surface (`Power`, `Volume`) — returns the error
"connection already closed". -/
theorem readLine_after_close (c : Client) (hin : c.incoming = [])
    (hc : c.chanClosed = true) :
    c.readLine = some ("", some (.errStr "connection already closed"), c) ∧
    (∀ cmd arg, c.sendCommand cmd arg =
      some ("", some (.errStr "connection already closed"),
        { c with trace := c.trace ++
            [IOEvent.write ((cmd ++ goPad4 arg).data ++ ['\r'])] })) ∧
    (∀ b, ∃ c1, c.Power b =
      some (some (.errStr "connection already closed"), c1)) ∧
    (∃ c1, c.Volume =
      some ((0, some (.errStr "connection already closed")), c1)) := by
  refine ⟨?_, fun cmd arg => sendCommand_eq_closed c cmd arg hin hc, ?_, ?_⟩
  · simp only [Client.readLine, hin, hc]
    simp
  · intro b
    refine ⟨{ c with trace := c.trace ++
        [IOEvent.write (("POWR" ++ goPad4 (if b then "1" else "0")).data ++ ['\r'])] }, ?_⟩
    rw [Client.Power.eq_def]
    dsimp only
    rw [sendCommand_eq_closed c "POWR" (if b then "1" else "0") hin hc]
  · refine ⟨{ c with trace := c.trace ++
        [IOEvent.write (("VOLM" ++ goPad4 "?").data ++ ['\r'])] }, ?_⟩
    rw [Client.Volume.eq_def, sendCommand_eq_closed c "VOLM" "?" hin hc]

/-- Witness for C9 at a concrete drained, closed session. -/
theorem readLine_after_close_witness :
    Client.readLine { Username := "", Password := "", chanClosed := true } =
      some ("", some (.errStr "connection already closed"),
        { Username := "", Password := "", chanClosed := true }) :=
  (readLine_after_close { Username := "", Password := "", chanClosed := true }
    rfl rfl).1

/-- C5, counterexample: on a connected client, the second `Close` is
not a no-op returning nil — `Close` does not clear `c.conn`, so the
second call closes the already-closed connection and returns its
error. -/
theorem Close_twice_cex :
    ((Client.Close
        { Username := "", Password := "", conn := some ⟨false⟩ }).2.Close).1 =
      some (.errStr "use of closed network connection") ∧
    ((Client.Close
        { Username := "", Password := "", conn := some ⟨false⟩ }).2.Close).1 ≠
      none := by
  decide

/-- C5, amended: calling `Close` twice never panics (the nil guard
covers the never-connected client, where both calls are no-ops
returning nil); on a connected client the first `Close` of an open
connection succeeds, but because `Close` leaves `c.conn` set, the
second call closes the underlying connection again and returns its
already-closed error. -/
theorem Close_twice (c : Client) :
    (c.conn = none → c.Close = (none, c) ∧ (c.Close).2.Close = (none, c)) ∧
    (∀ cn, c.conn = some cn →
      (cn.closed = false → (c.Close).1 = none) ∧
      ((c.Close).2.Close).1 = some (.errStr "use of closed network connection")) := by
  constructor
  · intro h
    have h1 : c.Close = (none, c) := by rw [Client.Close, h]
    exact ⟨h1, by rw [h1, h1]⟩
  · intro cn h
    cases cn with
    | mk b =>
      cases b <;> simp [Client.Close, h, Conn.close]

/-- Witness for the amended C5: a never-connected client and a
connected client, both at concrete values. -/
theorem Close_twice_witness :
    (Client.Close { Username := "", Password := "" } =
      (none, { Username := "", Password := "" }) ∧
     ((Client.Close { Username := "", Password := "" }).2.Close) =
      (none, { Username := "", Password := "" })) ∧
    ((Client.Close
        { Username := "", Password := "", conn := some ⟨false⟩ }).1 = none ∧
     ((Client.Close
        { Username := "", Password := "", conn := some ⟨false⟩ }).2.Close).1 =
      some (.errStr "use of closed network connection")) :=
  ⟨(Close_twice { Username := "", Password := "" }).1 rfl,
   ⟨((Close_twice { Username := "", Password := "", conn := some ⟨false⟩ }).2
      ⟨false⟩ rfl).1 rfl,
    ((Close_twice { Username := "", Password := "", conn := some ⟨false⟩ }).2
      ⟨false⟩ rfl).2⟩⟩

/-- C10: `scanLines` is total and never over-consumes: for every buffer
and EOF flag it returns a nil error, an advance of at most the buffer
length (non-negativity is carried by the `Nat` type), and any emitted
token is a contiguous slice of the buffer. -/
theorem scanLines_safe (data : List Char) (atEOF : Bool) :
    (scanLines data atEOF).err = none ∧
    (scanLines data atEOF).advance ≤ data.length ∧
    ∀ t, (scanLines data atEOF).token = some t → t <:+: data := by
  rw [scanLines]
  by_cases h0 : atEOF && data.isEmpty
  · rw [if_pos h0]
    exact ⟨rfl, Nat.zero_le _, by intro t h; simp at h⟩
  · rw [if_neg h0]
    cases hf : findIgnore (data.dropWhile isIgnore) with
    | some j =>
      have hj := findIgnore_lt_length _ j hf
      have hsum := takeWhile_add_dropWhile_length data
      refine ⟨rfl, by simp; omega, ?_⟩
      intro t ht
      simp only [ScanResult.mk.injEq] at ht
      rw [← Option.some_inj.mp ht]
      exact ⟨data.takeWhile isIgnore, (data.dropWhile isIgnore).drop j, by
        rw [List.append_assoc, List.take_append_drop,
          List.takeWhile_append_dropWhile]⟩
    | none =>
      by_cases hc : atEOF && decide ((data.takeWhile isIgnore).length < data.length)
      · rw [if_pos hc]
        refine ⟨rfl, le_refl _, ?_⟩
        intro t ht
        simp only [ScanResult.mk.injEq] at ht
        rw [← Option.some_inj.mp ht]
        exact ⟨data.takeWhile isIgnore, [], by
          rw [List.append_nil, List.takeWhile_append_dropWhile]⟩
      · rw [if_neg hc]
        have hsum := takeWhile_add_dropWhile_length data
        exact ⟨rfl, by simp; omega, by intro t h; simp at h⟩

/-- Witness for C10 at a concrete buffer: the token emitted from
`"AB\rC"` is a contiguous slice of it. -/
theorem scanLines_safe_witness : ['A', 'B'] <:+: ['A', 'B', '\r', 'C'] :=
  (scanLines_safe ['A', 'B', '\r', 'C'] false).2.2 ['A', 'B'] (by decide)

/-- C4, counterexample: on the buffer `"\rA"` with `atEOF = false`, no
ignorable byte occurs at or after the first non-ignorable position, yet
`scanLines` reports 1 byte consumed (the skipped leading `'\r'`), not
the zero bytes the claim states. -/
theorem scanLines_zero_advance_cex :
    noIgnoreAfterSkip ['\r', 'A'] = true ∧
    (scanLines ['\r', 'A'] false).advance = 1 ∧
    (scanLines ['\r', 'A'] false).advance ≠ 0 := by
  decide

/-- C4, amended: with `atEOF = false`, if no ignorable byte occurs at or
after the first non-ignorable position, `scanLines` consumes exactly the
leading ignorable bytes (zero when the buffer starts with content) and
produces no line. -/
theorem scanLines_waits_for_more_data (data : List Char)
    (h : noIgnoreAfterSkip data = true) :
    scanLines data false = ⟨(data.takeWhile isIgnore).length, none, none⟩ := by
  have hf := findIgnore_eq_none_of_all (data.dropWhile isIgnore) h
  rw [scanLines, if_neg (by simp), hf]
  rw [if_neg (by simp)]

/-- Witness for the amended C4 at the buffer `"AB"`: nothing consumed,
no line. -/
theorem scanLines_waits_for_more_data_witness :
    noIgnoreAfterSkip ['A', 'B'] = true ∧
    scanLines ['A', 'B'] false = ⟨0, none, none⟩ :=
  ⟨by decide, scanLines_waits_for_more_data ['A', 'B'] (by decide)⟩

/-- C8, counterexample (negation of the claim): there is no input buffer
and EOF flag for which `scanLines` emits a zero-length line — the
leading skip removes every ignorable byte before the token starts, so
adjacent ignorable bytes never produce an empty token. -/
theorem scanLines_empty_line_cex :
    ¬ ∃ (data : List Char) (atEOF : Bool) (t : List Char),
        (scanLines data atEOF).token = some t ∧ t.length = 0 := by
  rintro ⟨data, atEOF, t, h, hlen⟩
  exact scanLines_token_ne_nil_aux data atEOF t h (List.length_eq_zero.mp hlen)

/-- C8, amended: `scanLines` never passes a zero-length line through —
when two ignorable bytes are adjacent the span between them is skipped
with the leading separators rather than emitted, so every emitted line
is nonempty. -/
theorem scanLines_token_nonempty (data : List Char) (atEOF : Bool) (t : List Char)
    (h : (scanLines data atEOF).token = some t) : 0 < t.length :=
  List.length_pos.mpr (scanLines_token_ne_nil_aux data atEOF t h)

/-- Witness for the amended C8: the token emitted from `"A\r"` has
positive length. -/
theorem scanLines_token_nonempty_witness :
    (scanLines ['A', '\r'] false).token = some ['A'] ∧ 0 < (['A'] : List Char).length :=
  ⟨by decide, scanLines_token_nonempty ['A', '\r'] false ['A'] (by decide)⟩

end Aquos
